import Mathlib

/-!
Verification development for a voice-driven chat application consisting of
a server-side turn dispatcher (`src/pages/api/chat.ts`) and a client-side
turn controller (a React page with speech recognition and audio playback).

The server handler is embedded as a pure function over an explicit record
of external collaborators (hosted LLM API, local inference server,
aggregator API, speech synthesis), recording which backend adapters and
synthesis calls were made.  The client is embedded as a deterministic
state machine over the events its callbacks react to (toggle button,
speech results, the silence timer, fetch responses, playback end,
recognition end), under the single-threaded cooperative scheduling of the
browser event loop: each callback runs to completion as one transition.
-/

namespace VoiceAssist

/-! ## JavaScript string primitives

The embedded code uses `split(' ')`, `join(' ')`, `includes`,
`toLowerCase`, `charAt(0).toUpperCase() + slice(1)`.  These are modelled
on `List Char` with JavaScript semantics: `"".split(' ')` is `[""]`, and
consecutive separators produce empty tokens. -/

/-- `pre` is a leading segment of `s` (character lists). -/
def charsBeginWith : List Char → List Char → Bool
  | [], _ => true
  | _ :: _, [] => false
  | a :: as, b :: bs => a == b && charsBeginWith as bs

/-- `pat` occurs contiguously inside `s` (JavaScript `String.includes`). -/
def hasSubstr : List Char → List Char → Bool
  | [], pat => charsBeginWith pat []
  | c :: rest, pat => charsBeginWith pat (c :: rest) || hasSubstr rest pat

/-- JavaScript `s.includes(pat)`. -/
def jsIncludes (s pat : String) : Bool :=
  hasSubstr s.data pat.data

/-- JavaScript `s.split(' ')` on character lists: split at every single
space, keeping empty tokens; the empty string yields one empty token. -/
def splitSp : List Char → List (List Char)
  | [] => [[]]
  | c :: rest =>
    if c = ' ' then [] :: splitSp rest
    else
      match splitSp rest with
      | [] => [[c]]
      | w :: ws => (c :: w) :: ws

/-- JavaScript `tokens.join(' ')` on character lists. -/
def joinSp : List (List Char) → List Char
  | [] => []
  | [w] => w
  | w :: ws => w ++ ' ' :: joinSp ws

/-- JavaScript `s.split(' ')`. -/
def jsSplitSpace (s : String) : List String :=
  (splitSp s.data).map String.mk

/-- JavaScript `tokens.join(' ')`. -/
def jsJoinSpace (l : List String) : String :=
  String.mk (joinSp (l.map String.data))

/-- JavaScript `s.toLowerCase()` (character-wise, as `Char.toLower`). -/
def jsToLower (s : String) : String :=
  String.mk (s.data.map Char.toLower)

/-- JavaScript `s.charAt(0).toUpperCase() + s.slice(1)`. -/
def jsCapitalize (s : String) : String :=
  match s.data with
  | [] => s
  | c :: rest => String.mk (c.toUpper :: rest)

/-! ## Server: the turn dispatcher (`src/pages/api/chat.ts`) -/

/-- A JSON field of the request body as seen by the zod schema: absent,
a string, or present with a non-string value. -/
inductive Field where
  | absent
  | str (s : String)
  | nonString
deriving DecidableEq

/-- The request body fields the handler reads (`message`, `model`). -/
structure RequestBody where
  message : Field
  model : Field
deriving DecidableEq

/-- `requestSchema.parse`: `message` must be a string; `model` must be a
string when present and defaults to `"gpt"` when absent
(`z.object({ message: z.string(), model: z.string().default("gpt") })`).
Returns the parsed `(message, model)` pair or a validation error. -/
def parseRequest (b : RequestBody) : Except String (String × String) :=
  match b.message with
  | .str m =>
    match b.model with
    | .str md => .ok (m, md)
    | .absent => .ok (m, "gpt")
    | .nonString => .error "invalid type for model"
  | .absent => .error "message is required"
  | .nonString => .error "invalid type for message"

/-- One invocation of a backend adapter, as performed by
`getModelResponse`: the hosted API (LangchainOpenAI, with an optional
`modelName` override), the local inference server (Ollama, with a model
name), or the aggregator API (Perplexity, with a model name). -/
inductive BackendCall where
  | hosted (modelTier : Option String) (prompt : String)
  | localModel (model : String) (prompt : String)
  | aggregator (model : String) (prompt : String)
deriving DecidableEq

/-- One invocation of the speech-synthesis collaborator
(`openai.audio.speech.create`): the voice and the input text. -/
structure TtsCall where
  voice : String
  input : String
deriving DecidableEq

/-- The external collaborators the handler calls, as oracles: each takes
the arguments the code passes and either returns text (reply text, or
base64 audio for synthesis) or fails. -/
structure Collaborators where
  hostedInvoke : Option String → String → Except String String
  ollamaInvoke : String → String → Except String String
  aggregatorPost : String → String → Except String String
  ttsCreate : String → String → Except String String

/-- The JSON body of a `200` response
(`{ data, contentType, model }`). -/
structure ResponseData where
  data : String
  contentType : String
  model : String
deriving DecidableEq

/-- The observable outcome of one handler invocation: the backend
adapter calls made, the synthesis calls made, and either the `200`
response body or the error thrown (which the framework surfaces as a
non-2xx response). -/
structure HandlerResult where
  backendCalls : List BackendCall
  ttsCalls : List TtsCall
  result : Except String ResponseData

/-- `getModelResponse(modelName, prompt)`: the switch over the model
name, selecting and invoking one backend adapter, or throwing
`Unsupported model` on the default branch without calling any adapter.
Returns the adapter calls made together with the outcome. -/
def getModelResponse (env : Collaborators) (modelName prompt : String) :
    List BackendCall × Except String String :=
  if modelName == "gpt" || modelName == "gpt4" then
    let tier : Option String := if modelName == "gpt4" then some "gpt-4" else none
    ([.hosted tier prompt], env.hostedInvoke tier prompt)
  else if modelName == "local mistral" || modelName == "local llama" then
    let ollamaModel := if modelName == "local mistral" then "mistral" else "llama2"
    ([.localModel ollamaModel prompt], env.ollamaInvoke ollamaModel prompt)
  else if modelName == "mixture" || modelName == "mistral" ||
      modelName == "perplexity" || modelName == "llama" then
    let perplexityModel :=
      if modelName == "mixture" then "mixtral-8x7b-instruct"
      else if modelName == "mistral" then "mistral-7b-instruct"
      else if modelName == "perplexity" then "pplx-70b-online"
      else "llama-2-70b-chat"
    ([.aggregator perplexityModel prompt], env.aggregatorPost perplexityModel prompt)
  else
    ([], .error ("Unsupported model: " ++ modelName))

/-- The model names accepted by `getModelResponse`'s switch. -/
def supportedModels : List String :=
  ["gpt", "gpt4", "local mistral", "local llama",
   "mixture", "mistral", "perplexity", "llama"]

/-- `createAudio(fullMessage, voice)`: invokes speech synthesis and
returns base64 audio, mapping any failure to `Failed to create audio`.
Returns the synthesis call made together with the outcome. -/
def createAudio (env : Collaborators) (fullMessage voice : String) :
    TtsCall × Except String String :=
  (⟨voice, fullMessage⟩,
    match env.ttsCreate voice fullMessage with
    | .ok b64 => .ok b64
    | .error _ => .error "Failed to create audio")

/-- The fixed system instruction prepended to every prompt. -/
def promptInstr : String :=
  "Be precise and concise, never respond in more than 1-2 sentences! "

/-- The prompt built by the handler:
`message.toLowerCase().split(' ').slice(1).join(' ')` appended to the
fixed instruction. -/
def buildPrompt (message : String) : String :=
  promptInstr ++ jsJoinSpace ((jsSplitSpace (jsToLower message)).drop 1)

/-- `introMessage`: the spoken introduction naming the model
(`modelName.charAt(0).toUpperCase() + modelName.slice(1) + " here, "`). -/
def introMessage (modelName : String) : String :=
  jsCapitalize modelName ++ " here, "

/-- The synthesis voice: `"fable"` when the model name contains
`"local"`, otherwise `"echo"`. -/
def voiceFor (modelName : String) : String :=
  if jsIncludes modelName "local" then "fable" else "echo"

/-- The `POST` handler: parse the body, build the prompt, invoke the
selected backend, prefix the reply with the introduction, synthesize
audio, and answer `200` with `{ data, contentType: "audio/mp3", model }`.
Any failure is caught and rethrown as the generic
`Failed to process request`, which the framework surfaces as a non-2xx
response. -/
def POST (env : Collaborators) (body : RequestBody) : HandlerResult :=
  match parseRequest body with
  | .error _ => ⟨[], [], .error "Failed to process request"⟩
  | .ok (message, modelName) =>
    let prompt := buildPrompt message
    let gm := getModelResponse env modelName prompt
    match gm.2 with
    | .error _ => ⟨gm.1, [], .error "Failed to process request"⟩
    | .ok gptMessage =>
      let fullMessage := introMessage modelName ++ gptMessage
      let ca := createAudio env fullMessage (voiceFor modelName)
      match ca.2 with
      | .error _ => ⟨gm.1, [ca.1], .error "Failed to process request"⟩
      | .ok base64Audio =>
        ⟨gm.1, [ca.1], .ok ⟨base64Audio, "audio/mp3", modelName⟩⟩

/-- Deterministic stub collaborators that always succeed: every backend
returns `reply`, synthesis returns `audio`. -/
def stubEnv (reply audio : String) : Collaborators :=
  ⟨fun _ _ => .ok reply, fun _ _ => .ok reply,
   fun _ _ => .ok reply, fun _ _ => .ok audio⟩

/-! ## Client: the turn controller (the `Home` page component)

The client is a React component whose behaviour is driven by callbacks:
the Start/Stop toggle button (`handleToggleRecording`), the model
bubbles (`onClick={() => sendToBackend(..)}`), speech-recognition
results (`handleResult`), the 2000 ms silence timer set by
`handleResult`, the resolution of the `fetch` to `/api/chat` inside
`sendToBackend`, `audio.onended`, and `recognition.onend`.  Under the
browser's single-threaded event loop each callback runs to completion,
so the component is a deterministic state machine: one transition per
event.  `stopRecording()` triggers `recognition.onend`, which sets
`isRecording` to `false` and clears the silence timer; that chain is
folded into the transition that calls it. -/

/-- The keyword list of `handleResult`, in source order: more specific
names (`"gpt4"`, `"local mistral"`, `"local llama"`) come before the
names that are their substrings. -/
def modelKeywords : List String :=
  ["gpt4", "gpt", "perplexity", "local mistral", "local llama",
   "mixture", "mistral", "llama"]

/-- `words.slice(0, 3).join(" ").toLowerCase()`: the first three
space-separated tokens of the transcript, joined and lowercased. -/
def first3Joined (transcript : String) : String :=
  jsToLower (jsJoinSpace ((jsSplitSpace transcript).take 3))

/-- `modelKeywords.find(keyword => words.slice(0,3).join(" ")
.toLowerCase().includes(keyword))`: the first keyword, in list order,
contained in the first three tokens of the transcript. -/
def detectedModel (transcript : String) : Option String :=
  modelKeywords.find? (fun keyword => jsIncludes (first3Joined transcript) keyword)

/-- The body of the client's `fetch`:
`JSON.stringify({ message, model: modelKeyword })` — an `undefined`
`modelKeyword` is dropped by `JSON.stringify`, so the `model` field is
absent from the JSON. -/
def clientBody (message : String) (modelKeyword : Option String) : RequestBody :=
  ⟨.str message, match modelKeyword with | some k => .str k | none => .absent⟩

/-- The client component's state: the `isRecording`, `isPlaying`,
`transcript` and `model` hooks, whether the silence timer is pending,
and how many `fetch` requests are in flight. -/
structure ClientState where
  isRecording : Bool
  isPlaying : Bool
  transcript : String
  model : String
  timerPending : Bool
  sending : Nat
deriving DecidableEq

/-- The initial state of the component: nothing recording or playing,
empty transcript and model, no timer, no request in flight. -/
def initState : ClientState :=
  ⟨false, false, "", "", false, 0⟩

/-- The events the component reacts to.  `responseOk`/`responseFail`
are the resolution of a `fetch` issued by `sendToBackend` (with a good
response or with a network error / non-ok status); `playbackEnded` is
`audio.onended` and carries the `model` echoed by the response;
`recognitionEnded` is a spontaneous `recognition.onend`. -/
inductive ClientEvent where
  | toggle
  | bubbleClick (model : String)
  | speechResult (t : String)
  | timerFired
  | responseOk (respModel : String)
  | responseFail
  | playbackEnded (respModel : String)
  | recognitionEnded
deriving DecidableEq

/-- One transition of the turn controller.  Each branch is the body of
the corresponding source callback; `stopRecording()` is folded with the
`recognition.onend` it triggers (clear `isRecording` and the silence
timer).  Events whose callback cannot fire in the given state (a timer
that is not pending, a response with no request in flight, `onended`
with no audio playing) leave the state unchanged. -/
def step (s : ClientState) (e : ClientEvent) : ClientState :=
  match e with
  | .toggle =>
    -- handleToggleRecording
    if !s.isRecording && !s.isPlaying then
      -- startRecording(): isRecording := true, transcript := ""
      { s with isRecording := true, transcript := "" }
    else if s.isRecording then
      -- stopRecording(); sendToBackend(transcript): no modelKeyword, so
      -- `else if (!model) setModel("gpt-3.5")`; fetch is issued
      { s with isRecording := false, timerPending := false,
               model := if s.model == "" then "gpt-3.5" else s.model,
               sending := s.sending + 1 }
    else s
  | .bubbleClick m =>
    -- sendToBackend(`Use ${model} model`, model): setModel(model);
    -- stopRecording(); fetch is issued
    { s with model := m, isRecording := false, timerPending := false,
             sending := s.sending + 1 }
  | .speechResult t =>
    -- handleResult: clear and re-arm the silence timer, set transcript
    if s.isRecording then
      { s with transcript := t, timerPending := true }
    else s
  | .timerFired =>
    -- the silence-timer callback: detect the model keyword,
    -- setModel(detectedModel || "gpt"), sendToBackend(transcript,
    -- detectedModel) (which stops recording and, with no keyword and a
    -- stale empty `model`, sets "gpt-3.5"), setTranscript("")
    if s.timerPending then
      { s with timerPending := false, isRecording := false,
               model :=
                 match detectedModel s.transcript with
                 | some k => k
                 | none => if s.model == "" then "gpt-3.5" else "gpt",
               sending := s.sending + 1, transcript := "" }
    else s
  | .responseOk _ =>
    -- fetch resolved with ok status and audio data: setIsPlaying(true),
    -- audio.play()
    if s.sending > 0 then
      { s with sending := s.sending - 1, isPlaying := true }
    else s
  | .responseFail =>
    -- fetch rejected or non-ok status: the error is caught and logged,
    -- nothing else happens
    if s.sending > 0 then
      { s with sending := s.sending - 1 }
    else s
  | .playbackEnded respModel =>
    -- audio.onended: setIsPlaying(false); startRecording();
    -- if (data.model) setModel(data.model)
    if s.isPlaying then
      { s with isPlaying := false, isRecording := true, transcript := "",
               model := if respModel == "" then s.model else respModel }
    else s
  | .recognitionEnded =>
    -- recognition.onend: setIsRecording(false), clear the silence timer
    if s.isRecording then
      { s with isRecording := false, timerPending := false }
    else s

/-- The state after a list of events, from the initial state. -/
def run (es : List ClientEvent) : ClientState :=
  es.foldl step initState

/-! ## Helper lemmas -/

theorem splitSp_ne_nil (l : List Char) : splitSp l ≠ [] := by
  induction l with
  | nil => simp [splitSp]
  | cons c rest ih =>
    simp only [splitSp]
    split
    · simp
    · split <;> simp_all

theorem splitSp_no_space (l : List Char) (h : ∀ c ∈ l, c ≠ ' ') :
    splitSp l = [l] := by
  induction l with
  | nil => rfl
  | cons c rest ih =>
    have hc : c ≠ ' ' := h c (by simp)
    have hr := ih (fun x hx => h x (by simp [hx]))
    simp [splitSp, hc, hr]

theorem splitSp_append_space (w rest : List Char) (h : ∀ c ∈ w, c ≠ ' ') :
    splitSp (w ++ ' ' :: rest) = w :: splitSp rest := by
  induction w with
  | nil => simp [splitSp]
  | cons c cs ih =>
    have hc : c ≠ ' ' := h c (by simp)
    have hr := ih (fun x hx => h x (by simp [hx]))
    simp [splitSp, hc, hr]

theorem splitSp_joinSp (l : List (List Char)) (hne : l ≠ [])
    (h : ∀ w ∈ l, ∀ c ∈ w, c ≠ ' ') : splitSp (joinSp l) = l := by
  induction l with
  | nil => exact absurd rfl hne
  | cons w ws ih =>
    cases ws with
    | nil => exact splitSp_no_space w (h w (by simp))
    | cons w2 ws2 =>
      have hj : joinSp (w :: w2 :: ws2) = w ++ ' ' :: joinSp (w2 :: ws2) := rfl
      rw [hj, splitSp_append_space w _ (h w (by simp)),
        ih (by simp) (fun x hx c hc => h x (by simp [hx]) c hc)]

theorem map_mk_map_data (l : List String) :
    (l.map String.data).map String.mk = l := by
  induction l with
  | nil => rfl
  | cons a as ih =>
    show String.mk a.data :: (as.map String.data).map String.mk = a :: as
    rw [ih]

theorem jsSplitSpace_jsJoinSpace (l : List String) (hne : l ≠ [])
    (h : ∀ w ∈ l, ∀ c ∈ w.data, c ≠ ' ') :
    jsSplitSpace (jsJoinSpace l) = l := by
  unfold jsSplitSpace jsJoinSpace
  rw [show (String.mk (joinSp (l.map String.data))).data =
      joinSp (l.map String.data) from rfl]
  rw [splitSp_joinSp _ (by simpa using hne)
    (fun w hw => by
      obtain ⟨s, hs, rfl⟩ := List.mem_map.1 hw
      exact h s hs)]
  exact map_mk_map_data l

/-! ## The controller invariant -/

/-- The inductive invariant of the turn controller: recording excludes
playing and an in-flight request, playing excludes recording, an
in-flight request and a pending timer, a pending timer only exists while
recording, and at most one request is in flight. -/
def Inv (s : ClientState) : Prop :=
  (s.isRecording = true → s.isPlaying = false ∧ s.sending = 0) ∧
  (s.isPlaying = true →
    s.isRecording = false ∧ s.sending = 0 ∧ s.timerPending = false) ∧
  (s.timerPending = true → s.isRecording = true) ∧
  s.sending ≤ 1

/-- The user-action discipline under which the invariant is preserved:
the Start/Stop toggle is used only while no request is in flight, and a
model bubble is clicked only while no request is in flight and no audio
is playing.  All other events are the system's own callbacks. -/
def eventAllowed (s : ClientState) : ClientEvent → Bool
  | .toggle => s.sending == 0
  | .bubbleClick _ => s.sending == 0 && !s.isPlaying
  | _ => true

/-- Every event of the list respects `eventAllowed` in the state at
which it occurs, starting from `s`. -/
def allowedFrom : ClientState → List ClientEvent → Bool
  | _, [] => true
  | s, e :: es => eventAllowed s e && allowedFrom (step s e) es

theorem step_preserves_Inv (s : ClientState) (e : ClientEvent)
    (hInv : Inv s) (hAl : eventAllowed s e = true) : Inv (step s e) := by
  obtain ⟨h1, h2, h3, h4⟩ := hInv
  cases e with
  | toggle =>
    simp only [eventAllowed, beq_iff_eq] at hAl
    simp only [step]
    split
    · rename_i hg
      simp only [Bool.and_eq_true, Bool.not_eq_true'] at hg
      unfold Inv
      dsimp only
      exact ⟨fun _ => ⟨hg.2, hAl⟩,
        fun hp => absurd hp (by simp [hg.2]),
        fun _ => rfl, by omega⟩
    · split
      · rename_i hg hr
        have hpl := (h1 hr).1
        unfold Inv
        dsimp only
        exact ⟨fun h => by simp at h,
          fun hp => absurd hp (by simp [hpl]),
          fun h => by simp at h, by omega⟩
      · exact ⟨h1, h2, h3, h4⟩
  | bubbleClick m =>
    simp only [eventAllowed, Bool.and_eq_true, beq_iff_eq,
      Bool.not_eq_true'] at hAl
    simp only [step]
    unfold Inv
    dsimp only
    exact ⟨fun h => by simp at h,
      fun hp => absurd hp (by simp [hAl.2]),
      fun h => by simp at h, by omega⟩
  | speechResult t =>
    simp only [step]
    split
    · rename_i hr
      unfold Inv
      dsimp only
      exact ⟨fun _ => h1 hr,
        fun hp => absurd hp (by simp [(h1 hr).1]),
        fun _ => hr, h4⟩
    · exact ⟨h1, h2, h3, h4⟩
  | timerFired =>
    simp only [step]
    split
    · rename_i ht
      have hr := h3 ht
      have hpl := (h1 hr).1
      have hs0 := (h1 hr).2
      unfold Inv
      dsimp only
      exact ⟨fun h => by simp at h,
        fun hp => absurd hp (by simp [hpl]),
        fun h => by simp at h, by omega⟩
    · exact ⟨h1, h2, h3, h4⟩
  | responseOk respModel =>
    simp only [step]
    split
    · rename_i hs
      have hr : s.isRecording = false := by
        cases hval : s.isRecording
        · rfl
        · exact absurd (h1 hval).2 (by omega)
      have ht : s.timerPending = false := by
        cases hval : s.timerPending
        · rfl
        · exact absurd (h3 hval) (by simp [hr])
      unfold Inv
      dsimp only
      exact ⟨fun h => by simp [hr] at h,
        fun _ => ⟨hr, by omega, ht⟩,
        fun h => by simp [ht] at h, by omega⟩
    · exact ⟨h1, h2, h3, h4⟩
  | responseFail =>
    simp only [step]
    split
    · rename_i hs
      have hr : s.isRecording = false := by
        cases hval : s.isRecording
        · rfl
        · exact absurd (h1 hval).2 (by omega)
      have hpl : s.isPlaying = false := by
        cases hval : s.isPlaying
        · rfl
        · exact absurd (h2 hval).2.1 (by omega)
      unfold Inv
      dsimp only
      exact ⟨fun h => by simp [hr] at h,
        fun h => by simp [hpl] at h,
        h3, by omega⟩
    · exact ⟨h1, h2, h3, h4⟩
  | playbackEnded respModel =>
    simp only [step]
    split
    · rename_i hp
      obtain ⟨hr, hs0, ht⟩ := h2 hp
      unfold Inv
      dsimp only
      exact ⟨fun _ => ⟨rfl, hs0⟩,
        fun h => by simp at h,
        fun _ => rfl, by omega⟩
    · exact ⟨h1, h2, h3, h4⟩
  | recognitionEnded =>
    simp only [step]
    split
    · rename_i hr
      unfold Inv
      dsimp only
      exact ⟨fun h => by simp at h,
        fun hp => ⟨rfl, (h2 hp).2.1, rfl⟩,
        fun h => by simp at h, h4⟩
    · exact ⟨h1, h2, h3, h4⟩

theorem Inv_initState : Inv initState :=
  ⟨fun h => by simp [initState] at h,
   fun h => by simp [initState] at h,
   fun h => by simp [initState] at h,
   by simp [initState]⟩

theorem foldl_preserves_Inv (es : List ClientEvent) (s : ClientState)
    (hInv : Inv s) (hAl : allowedFrom s es = true) :
    Inv (es.foldl step s) := by
  induction es generalizing s with
  | nil => exact hInv
  | cons e es ih =>
    simp only [allowedFrom, Bool.and_eq_true] at hAl
    exact ih (step s e) (step_preserves_Inv s e hInv hAl.1) hAl.2

theorem getModelResponse_unsupported (env : Collaborators)
    (modelName prompt : String) (h : modelName ∉ supportedModels) :
    getModelResponse env modelName prompt =
      ([], .error ("Unsupported model: " ++ modelName)) := by
  simp only [supportedModels, List.mem_cons, List.not_mem_nil, or_false,
    not_or] at h
  obtain ⟨n1, n2, n3, n4, n5, n6, n7, n8⟩ := h
  simp [getModelResponse, n1, n2, n3, n4, n5, n6, n7, n8]

/-- If the handler answered `200`, every stage succeeded and the
response is assembled exactly from the stage outputs. -/
theorem POST_ok_elim (env : Collaborators) (b : RequestBody)
    (r : ResponseData) (hr : (POST env b).result = .ok r) :
    ∃ message modelName reply,
      parseRequest b = .ok (message, modelName) ∧
      (getModelResponse env modelName (buildPrompt message)).2 = .ok reply ∧
      env.ttsCreate (voiceFor modelName)
        (introMessage modelName ++ reply) = .ok r.data ∧
      r.contentType = "audio/mp3" ∧ r.model = modelName := by
  unfold POST at hr
  cases hp : parseRequest b with
  | error e => rw [hp] at hr; simp at hr
  | ok p =>
    obtain ⟨message, modelName⟩ := p
    rw [hp] at hr
    dsimp only at hr
    cases hgm : (getModelResponse env modelName (buildPrompt message)).2 with
    | error e => rw [hgm] at hr; simp at hr
    | ok reply =>
      rw [hgm] at hr
      simp only [createAudio] at hr
      cases ht : env.ttsCreate (voiceFor modelName)
          (introMessage modelName ++ reply) with
      | error e => rw [ht] at hr; simp at hr
      | ok audio =>
        rw [ht] at hr
        dsimp only at hr
        simp only [Except.ok.injEq] at hr
        exact ⟨message, modelName, reply, rfl, hgm, by rw [← hr]; exact ht,
          by rw [← hr], by rw [← hr]⟩

/-- The handler's outcome is either the uniform generic error or a
`200` response. -/
theorem POST_result_cases (env : Collaborators) (b : RequestBody) :
    (POST env b).result = .error "Failed to process request" ∨
      ∃ r, (POST env b).result = .ok r := by
  unfold POST
  cases hp : parseRequest b with
  | error e => simp
  | ok p =>
    obtain ⟨message, modelName⟩ := p
    dsimp only
    cases hgm : (getModelResponse env modelName (buildPrompt message)).2 with
    | error e => simp
    | ok reply =>
      simp only [createAudio]
      cases ht : env.ttsCreate (voiceFor modelName)
          (introMessage modelName ++ reply) with
      | error e => simp
      | ok audio => exact Or.inr ⟨_, rfl⟩

/-- The handler's backend-adapter calls are exactly those of
`getModelResponse` on the parsed model name, and none on a parse
failure. -/
theorem POST_backendCalls (env : Collaborators) (b : RequestBody) :
    (POST env b).backendCalls =
      match parseRequest b with
      | .error _ => []
      | .ok (message, modelName) =>
        (getModelResponse env modelName (buildPrompt message)).1 := by
  unfold POST
  cases parseRequest b with
  | error e => rfl
  | ok p =>
    obtain ⟨message, modelName⟩ := p
    dsimp only
    cases (getModelResponse env modelName (buildPrompt message)).2 with
    | error e => rfl
    | ok reply =>
      dsimp only
      cases (createAudio env (introMessage modelName ++ reply)
          (voiceFor modelName)).2 with
      | error e => rfl
      | ok audio => rfl

/-! ## Claims -/

/-- C1: on every turn request whose processing fails (payload
validation, unsupported model, backend adapter failure, or
speech-synthesis failure), the dispatcher produces the thrown generic
error — surfaced by the framework as a non-2xx response with an error
body — and never a partial success: a `200` response implies every
stage succeeded and carries the complete synthesized payload assembled
from the stage outputs. -/
theorem c1_failure_yields_error_never_partial_success (env : Collaborators)
    (b : RequestBody) :
    ((POST env b).result = .error "Failed to process request" ∨
      ∃ r, (POST env b).result = .ok r) ∧
    (∀ r : ResponseData, (POST env b).result = .ok r →
      ∃ message modelName reply,
        parseRequest b = .ok (message, modelName) ∧
        (getModelResponse env modelName (buildPrompt message)).2 = .ok reply ∧
        env.ttsCreate (voiceFor modelName)
          (introMessage modelName ++ reply) = .ok r.data ∧
        r.contentType = "audio/mp3" ∧ r.model = modelName) :=
  ⟨POST_result_cases env b, fun r hr => POST_ok_elim env b r hr⟩

theorem c1_failure_yields_error_never_partial_success_witness :
    ∃ message modelName reply,
      parseRequest ⟨Field.str "hello", Field.absent⟩ =
        .ok (message, modelName) ∧
      (getModelResponse (stubEnv "r" "a") modelName
        (buildPrompt message)).2 = .ok reply ∧
      (stubEnv "r" "a").ttsCreate (voiceFor modelName)
        (introMessage modelName ++ reply) =
        .ok (ResponseData.mk "a" "audio/mp3" "gpt").data ∧
      (ResponseData.mk "a" "audio/mp3" "gpt").contentType = "audio/mp3" ∧
      (ResponseData.mk "a" "audio/mp3" "gpt").model = modelName :=
  (c1_failure_yields_error_never_partial_success (stubEnv "r" "a")
    ⟨.str "hello", .absent⟩).2 ⟨"a", "audio/mp3", "gpt"⟩ rfl

/-- C2: a request whose body fails TurnRequest validation, and a
request whose model identifier is outside the known set, invoke no
backend adapter: the handler errors with an empty backend-call trace. -/
theorem c2_invalid_requests_reach_no_backend (env : Collaborators) :
    (∀ b : RequestBody, (∃ e, parseRequest b = .error e) →
      POST env b = ⟨[], [], .error "Failed to process request"⟩) ∧
    (∀ message modelName : String, modelName ∉ supportedModels →
      POST env ⟨.str message, .str modelName⟩ =
        ⟨[], [], .error "Failed to process request"⟩) := by
  constructor
  · intro b he
    obtain ⟨e, he⟩ := he
    unfold POST
    rw [he]
  · intro message modelName hmem
    unfold POST
    rw [show parseRequest ⟨Field.str message, Field.str modelName⟩ =
      Except.ok (message, modelName) from rfl]
    dsimp only
    rw [getModelResponse_unsupported env modelName (buildPrompt message) hmem]

theorem c2_invalid_requests_reach_no_backend_witness :
    POST (stubEnv "r" "a") ⟨.absent, .absent⟩ =
      ⟨[], [], .error "Failed to process request"⟩ ∧
    POST (stubEnv "r" "a") ⟨.str "hi there", .str "unknown-model"⟩ =
      ⟨[], [], .error "Failed to process request"⟩ :=
  ⟨(c2_invalid_requests_reach_no_backend (stubEnv "r" "a")).1
      ⟨.absent, .absent⟩ ⟨"message is required", rfl⟩,
   (c2_invalid_requests_reach_no_backend (stubEnv "r" "a")).2
      "hi there" "unknown-model" (by decide)⟩

/-- C3: for every supported model identifier, a successfully dispatched
turn answers with `model` equal to the requested identifier; when the
`model` field is omitted, the response's `model` is the default
`"gpt"`. -/
theorem c3_model_field_echoes_request (env : Collaborators) :
    (∀ (message modelName : String) (r : ResponseData),
      modelName ∈ supportedModels →
      (POST env ⟨.str message, .str modelName⟩).result = .ok r →
      r.model = modelName) ∧
    (∀ (message : String) (r : ResponseData),
      (POST env ⟨.str message, .absent⟩).result = .ok r →
      r.model = "gpt") := by
  constructor
  · intro message modelName r _ hr
    obtain ⟨m, md, reply, hp, _, _, _, hmodel⟩ := POST_ok_elim env _ r hr
    have h2 : (Except.ok (message, modelName) :
        Except String (String × String)) = .ok (m, md) := hp
    simp only [Except.ok.injEq, Prod.mk.injEq] at h2
    rw [hmodel, ← h2.2]
  · intro message r hr
    obtain ⟨m, md, reply, hp, _, _, _, hmodel⟩ := POST_ok_elim env _ r hr
    have h2 : (Except.ok (message, "gpt") :
        Except String (String × String)) = .ok (m, md) := hp
    simp only [Except.ok.injEq, Prod.mk.injEq] at h2
    rw [hmodel, ← h2.2]

theorem c3_model_field_echoes_request_witness :
    (ResponseData.mk "a" "audio/mp3" "local mistral").model =
      "local mistral" ∧
    (ResponseData.mk "a" "audio/mp3" "gpt").model = "gpt" :=
  ⟨(c3_model_field_echoes_request (stubEnv "r" "a")).1 "hello"
      "local mistral" ⟨"a", "audio/mp3", "local mistral"⟩ (by decide) rfl,
   (c3_model_field_echoes_request (stubEnv "r" "a")).2 "hello"
      ⟨"a", "audio/mp3", "gpt"⟩ rfl⟩

/-- C4: keyword detection depends only on the first three
space-separated tokens of the transcript, lowercased; the keyword list
places the more specific identifiers (`"gpt4"`, `"local mistral"`,
`"local llama"`) before the identifiers that are their substrings, and
the first match wins: the transcript
`"local mistral please tell me a joke"` selects `"local mistral"` even
though the broader keyword `"mistral"` is also contained in its first
three tokens. -/
theorem c4_keyword_detection_first3_specificity :
    (∀ t₁ t₂ : String, first3Joined t₁ = first3Joined t₂ →
      detectedModel t₁ = detectedModel t₂) ∧
    modelKeywords.indexOf "gpt4" < modelKeywords.indexOf "gpt" ∧
    modelKeywords.indexOf "local mistral" <
      modelKeywords.indexOf "mistral" ∧
    modelKeywords.indexOf "local llama" < modelKeywords.indexOf "llama" ∧
    detectedModel "local mistral please tell me a joke" =
      some "local mistral" ∧
    jsIncludes (first3Joined "local mistral please tell me a joke")
      "mistral" = true ∧
    detectedModel "please tell me gpt4 now" = none := by
  refine ⟨?_, by decide, by decide, by decide, by decide, by decide,
    by decide⟩
  intro t₁ t₂ h
  unfold detectedModel
  rw [h]

theorem c4_keyword_detection_first3_specificity_witness :
    detectedModel "local mistral please tell me a joke" =
      detectedModel "local mistral please ignore all that" :=
  c4_keyword_detection_first3_specificity.1 _ _ (by decide)

/-- C5: a transcript whose first three tokens contain no model keyword
is sent with the `model` field omitted, the dispatcher defaults it to
`"gpt"`, and a successful turn answers with `model = "gpt"`. -/
theorem c5_no_keyword_defaults_to_gpt (t : String) (env : Collaborators)
    (r : ResponseData) (hdet : detectedModel t = none)
    (hok : (POST env (clientBody t (detectedModel t))).result = .ok r) :
    r.model = "gpt" := by
  rw [hdet] at hok
  obtain ⟨m, md, reply, hp, _, _, _, hmodel⟩ := POST_ok_elim env _ r hok
  have h2 : (Except.ok (t, "gpt") :
      Except String (String × String)) = .ok (m, md) := hp
  simp only [Except.ok.injEq, Prod.mk.injEq] at h2
  rw [hmodel, ← h2.2]

theorem c5_no_keyword_defaults_to_gpt_witness :
    (ResponseData.mk "a" "audio/mp3" "gpt").model = "gpt" :=
  c5_no_keyword_defaults_to_gpt "hello there friend" (stubEnv "r" "a")
    ⟨"a", "audio/mp3", "gpt"⟩ (by decide) rfl

/-- C6: the request `{message: "gpt4 explain entropy", model: "gpt4"}`
strips the leading token, builds the prompt from `"explain entropy"`
with the fixed short-answer instruction prepended, calls the hosted-API
adapter with the upgraded `gpt-4` tier, synthesizes
`"Gpt4 here, " ++ reply` with the non-local voice `"echo"`, and answers
`{contentType: "audio/mp3", model: "gpt4"}`. -/
theorem c6_end_to_end_gpt4 (reply audio : String) :
    POST (stubEnv reply audio) ⟨.str "gpt4 explain entropy", .str "gpt4"⟩ =
      ⟨[.hosted (some "gpt-4")
          "Be precise and concise, never respond in more than 1-2 sentences! explain entropy"],
       [⟨"echo", "Gpt4 here, " ++ reply⟩],
       .ok ⟨audio, "audio/mp3", "gpt4"⟩⟩ := rfl

/-- C7 counterexample: the claim that at most one of
`isRecording`/`isPlaying` is true in every reachable state fails on the
code: start recording, speak, let the silence timer send the turn, press
Start again while the request is in flight (the toggle guard checks only
`isRecording`/`isPlaying`, both false during Sending), and let the
response arrive — the state then has both `isRecording` and `isPlaying`
true. -/
theorem c7_recording_playing_counterexample :
    (run [.toggle, .speechResult "hi", .timerFired, .toggle,
        .responseOk "gpt"]).isRecording = true ∧
    (run [.toggle, .speechResult "hi", .timerFired, .toggle,
        .responseOk "gpt"]).isPlaying = true := by decide

/-- C7 (amended): at most one of `isRecording`/`isPlaying` is true in
every state reachable by event sequences in which the Start/Stop toggle
is pressed only while no turn request is in flight and a model bubble is
clicked only while no request is in flight and no audio is playing; the
system's own events (speech results, the silence timer, responses,
playback end, recognition end) are unrestricted. -/
theorem c7_recording_playing_exclusive_under_discipline
    (es : List ClientEvent) (h : allowedFrom initState es = true) :
    (run es).isRecording = false ∨ (run es).isPlaying = false := by
  have hInv : Inv (run es) :=
    foldl_preserves_Inv es initState Inv_initState h
  cases hval : (run es).isRecording
  · exact Or.inl rfl
  · exact Or.inr (hInv.1 hval).1

theorem c7_recording_playing_exclusive_under_discipline_witness :
    (run [.toggle, .speechResult "hi", .timerFired,
        .responseFail]).isRecording = false ∨
    (run [.toggle, .speechResult "hi", .timerFired,
        .responseFail]).isPlaying = false :=
  c7_recording_playing_exclusive_under_discipline _ (by decide)

/-- C8: entering the Sending phase (the silence timer fires while not
playing) leaves recording stopped, playback off and no pending silence
timer with the request in flight; and when that request fails, the
controller is left in Idle — not recording, not playing, no pending
timer — with no new request issued (no retry) and recording not
resumed. -/
theorem c8_send_failure_returns_to_idle :
    (∀ s : ClientState, s.timerPending = true → s.isPlaying = false →
      (step s .timerFired).isRecording = false ∧
      (step s .timerFired).isPlaying = false ∧
      (step s .timerFired).timerPending = false ∧
      (step s .timerFired).sending = s.sending + 1) ∧
    (∀ s : ClientState, s.sending = 1 → s.isRecording = false →
      s.isPlaying = false → s.timerPending = false →
      (step s .responseFail).isRecording = false ∧
      (step s .responseFail).isPlaying = false ∧
      (step s .responseFail).timerPending = false ∧
      (step s .responseFail).sending = 0 ∧
      step s .responseFail = { s with sending := 0 }) := by
  constructor
  · intro s ht hp
    simp [step, ht, hp]
  · intro s hs hrec hpl htm
    simp [step, hs, hrec, hpl, htm]

theorem c8_send_failure_returns_to_idle_witness :
    ((step ⟨true, false, "hi", "", true, 0⟩
        ClientEvent.timerFired).isRecording = false ∧
     (step ⟨true, false, "hi", "", true, 0⟩
        ClientEvent.timerFired).isPlaying = false ∧
     (step ⟨true, false, "hi", "", true, 0⟩
        ClientEvent.timerFired).timerPending = false ∧
     (step ⟨true, false, "hi", "", true, 0⟩
        ClientEvent.timerFired).sending =
       (⟨true, false, "hi", "", true, 0⟩ : ClientState).sending + 1) ∧
    ((step ⟨false, false, "", "gpt", false, 1⟩
        ClientEvent.responseFail).isRecording = false ∧
     (step ⟨false, false, "", "gpt", false, 1⟩
        ClientEvent.responseFail).isPlaying = false ∧
     (step ⟨false, false, "", "gpt", false, 1⟩
        ClientEvent.responseFail).timerPending = false ∧
     (step ⟨false, false, "", "gpt", false, 1⟩
        ClientEvent.responseFail).sending = 0 ∧
     step ⟨false, false, "", "gpt", false, 1⟩ ClientEvent.responseFail =
       { (⟨false, false, "", "gpt", false, 1⟩ : ClientState) with
           sending := 0 }) :=
  ⟨c8_send_failure_returns_to_idle.1 ⟨true, false, "hi", "", true, 0⟩
      rfl rfl,
   c8_send_failure_returns_to_idle.2 ⟨false, false, "", "gpt", false, 1⟩
      rfl rfl rfl rfl⟩

/-- C9 counterexample: the claim that the dispatcher accepts only a
non-empty `message` and rejects the empty string before any backend
call fails on the code: the schema is `z.string()` with no non-empty
check, so `{message: "", model: "gpt"}` passes validation, a backend
adapter is invoked on the instruction-only prompt, and the turn
succeeds. -/
theorem c9_empty_message_counterexample :
    parseRequest ⟨.str "", .str "gpt"⟩ = .ok ("", "gpt") ∧
    (POST (stubEnv "r" "a") ⟨.str "", .str "gpt"⟩).backendCalls =
      [.hosted none promptInstr] ∧
    (POST (stubEnv "r" "a") ⟨.str "", .str "gpt"⟩).result =
      .ok ⟨"a", "audio/mp3", "gpt"⟩ :=
  ⟨rfl, by decide, rfl⟩

/-- C9 (amended): the dispatcher requires only that `message` be a
string (and `model` a string when present): every string message, the
empty string included, passes validation — the empty message is
dispatched to a backend — and only a missing or non-string `message` is
rejected. -/
theorem c9_any_string_message_accepted (m : String) (x : Field)
    (env : Collaborators) :
    parseRequest ⟨.str m, .absent⟩ = .ok (m, "gpt") ∧
    parseRequest ⟨.str m, .str "gpt"⟩ = .ok (m, "gpt") ∧
    parseRequest ⟨.absent, x⟩ = .error "message is required" ∧
    parseRequest ⟨.nonString, x⟩ = .error "invalid type for message" ∧
    (POST env ⟨.str "", .str "gpt"⟩).backendCalls =
      [.hosted none promptInstr] := by
  refine ⟨rfl, rfl, rfl, rfl, ?_⟩
  rw [POST_backendCalls]
  show (getModelResponse env "gpt" (buildPrompt "")).1 =
    [.hosted none promptInstr]
  rw [show buildPrompt "" = promptInstr from by decide]
  rfl

/-- C10: the dispatcher always removes exactly one leading
space-separated token from the lowercased message when building the
prompt, whatever keyword was or was not detected: for a message whose
lowercase form is the tokens `w :: ws` joined by spaces, the prompt is
the fixed instruction followed by `ws` joined by spaces — a keyword-less
message loses its first content word, and of a two-token identifier such
as `"local mistral"` the second token remains in the prompt. -/
theorem c10_strips_exactly_one_token (msg w : String) (ws : List String)
    (hlow : jsToLower msg = jsJoinSpace (w :: ws))
    (hsp : ∀ u ∈ w :: ws, ∀ c ∈ u.data, c ≠ ' ') :
    buildPrompt msg = promptInstr ++ jsJoinSpace ws := by
  unfold buildPrompt
  rw [hlow, jsSplitSpace_jsJoinSpace _ (by simp) hsp]
  rfl

theorem c10_strips_exactly_one_token_witness :
    buildPrompt "Local Mistral tell a joke" =
      promptInstr ++ jsJoinSpace ["mistral", "tell", "a", "joke"] ∧
    buildPrompt "please tell jokes" =
      promptInstr ++ jsJoinSpace ["tell", "jokes"] :=
  ⟨c10_strips_exactly_one_token "Local Mistral tell a joke" "local"
      ["mistral", "tell", "a", "joke"] (by decide) (by decide),
   c10_strips_exactly_one_token "please tell jokes" "please"
      ["tell", "jokes"] (by decide) (by decide)⟩

end VoiceAssist
